import Mathlib

/-!
# Verification of the plan/state reconciliation mapping contract

Shallow embedding of the Terraform provider's assignment-filter CRUD
handlers (`crud.go` and the older variant kept alongside it) and of the
conditional-access-policy constructor (`construct.go`), together with
theorems settling the stated properties of the mapping contract.

Conventions of the embedding:
* Terraform framework nullable values (`types.String`, `types.Bool`,
  `types.Int32`) are `Option`-backed structures with the framework's
  `IsNull` / `ValueString` / `ValueBool` accessors (a null value's
  accessor yields the zero value, as in the framework).
* The result of each remote Graph call is a parameter of the handler
  (`Except GraphError _`): the handler's own control flow is embedded
  from the source, while the network is an oracle.  Each handler result
  records whether the remote call was reached (`remoteCalled`).
* Fallible Go functions returning `(T, error)` become `Except String T`.
-/

/-- `types.String` of the Terraform plugin framework: a nullable string. -/
structure TFString where
  val : Option String
deriving DecidableEq, Repr

/-- `IsNull()` of a framework string value. -/
def TFString.IsNull (s : TFString) : Bool := s.val.isNone

/-- `ValueString()`: the string, or the zero value `""` when null. -/
def TFString.ValueString (s : TFString) : String := s.val.getD ""

/-- `types.StringValue`: a known, non-null string value. -/
def StringValue (s : String) : TFString := ⟨some s⟩

/-- `types.StringNull()`: the null string value. -/
def StringNull : TFString := ⟨none⟩

/-- `types.Bool` of the Terraform plugin framework: a nullable bool. -/
structure TFBool where
  val : Option Bool
deriving DecidableEq, Repr

/-- `IsNull()` of a framework bool value. -/
def TFBool.IsNull (b : TFBool) : Bool := b.val.isNone

/-- `ValueBool()`: the bool, or the zero value `false` when null. -/
def TFBool.ValueBool (b : TFBool) : Bool := b.val.getD false

/-- `types.BoolNull()`: the null bool value. -/
def BoolNull : TFBool := ⟨none⟩

/-- `types.Int32` of the Terraform plugin framework: a nullable int32. -/
structure TFInt32 where
  val : Option Int
deriving DecidableEq, Repr

/-- `IsNull()` of a framework int32 value. -/
def TFInt32.IsNull (i : TFInt32) : Bool := i.val.isNone

/-- `ValueInt32()`: the integer, or the zero value `0` when null. -/
def TFInt32.ValueInt32 (i : TFInt32) : Int := i.val.getD 0

/-- A Terraform diagnostic: `AddWarning` or `AddError` with a summary
and a detail string. -/
inductive Diagnostic where
  | warning (summary detail : String)
  | error (summary detail : String)
deriving DecidableEq, Repr

/-- Whether a diagnostic is an error diagnostic. -/
def Diagnostic.isError : Diagnostic → Bool
  | .warning _ _ => false
  | .error _ _ => true

/-- `Diagnostics.HasError()`: some accumulated diagnostic is an error. -/
def hasError (ds : List Diagnostic) : Bool := ds.any Diagnostic.isError

/-- Outcome of a handler on the Terraform state of the resource
instance: untouched, overwritten by `resp.State.Set`, or cleared by
`resp.State.RemoveResource`. -/
inductive StateResult (α : Type) where
  | unchanged
  | set (m : α)
  | removed
deriving DecidableEq, Repr

/-- The observable result of one CRUD handler invocation. -/
structure HandlerResult (α : Type) where
  diagnostics : List Diagnostic
  state : StateResult α
  remoteCalled : Bool
deriving DecidableEq, Repr

/-- An error returned by a Graph SDK call, tagged with whether the
underlying OData error carries a not-found classification. -/
inductive GraphError where
  | notFound (message : String)
  | other (message : String)
deriving DecidableEq, Repr

/-- The error's message text (`err.Error()`). -/
def GraphError.message : GraphError → String
  | .notFound m => m
  | .other m => m

/-- Modelled from the spec: `common.IsNotFoundError` is referenced by
`crud.go` but its definition is not among the provided sources.  Per the
spec it classifies a remote API error as "not found"; in this embedding
the classification is carried by the `GraphError` constructor. -/
def IsNotFoundError : GraphError → Bool
  | .notFound _ => true
  | .other _ => false

/-! ## Assignment filter: attribute model and remote resource -/

/-- One entry of the `payloads` nested list attribute. -/
structure AssignmentFilterPayloadModel where
  PayloadId : TFString
  PayloadType : TFString
  GroupId : TFString
  AssignmentFilterType : TFString
deriving DecidableEq, Repr

/-- `AssignmentFilterResourceModel`: the Terraform attribute model of
the assignment filter resource (the `Timeouts` block is handled as an
explicit handler parameter in this embedding). -/
structure AssignmentFilterResourceModel where
  ID : TFString
  DisplayName : TFString
  Description : TFString
  Platform : TFString
  Rule : TFString
  AssignmentFilterManagementType : TFString
  CreatedDateTime : TFString
  LastModifiedDateTime : TFString
  RoleScopeTags : Option (List String)
  Payloads : Option (List AssignmentFilterPayloadModel)
deriving DecidableEq, Repr

/-- One payload entry of the remote Graph representation. -/
structure RemotePayload where
  payloadId : Option String
  payloadType : Option String
  groupId : Option String
  assignmentFilterType : Option String
deriving DecidableEq, Repr

/-- The Graph API's returned `deviceAndAppManagementAssignmentFilter`:
every field may be absent on the wire. -/
structure DeviceAndAppManagementAssignmentFilter where
  id : Option String
  displayName : Option String
  description : Option String
  platform : Option String
  rule : Option String
  assignmentFilterManagementType : Option String
  createdDateTime : Option String
  lastModifiedDateTime : Option String
  roleScopeTags : Option (List String)
  payloads : Option (List RemotePayload)
deriving DecidableEq, Repr

/-- Maps one remote payload entry onto the payload attribute model. -/
def mapRemotePayload (p : RemotePayload) : AssignmentFilterPayloadModel :=
  { PayloadId := ⟨p.payloadId⟩
    PayloadType := ⟨p.payloadType⟩
    GroupId := ⟨p.groupId⟩
    AssignmentFilterType := ⟨p.assignmentFilterType⟩ }

/-- Modelled from the spec: `mapRemoteStateToTerraform` (the assignment
filter's State Mapper) is called by both handler variants but its body
is not among the provided sources.  Per the spec it populates every
field of the Attribute Model from the Remote Resource, including
computed-only fields, mapping every absent remote field to explicit
"unset" rather than a zero value. -/
def mapRemoteStateToTerraform (state : AssignmentFilterResourceModel)
    (remote : DeviceAndAppManagementAssignmentFilter) :
    AssignmentFilterResourceModel :=
  { state with
    ID := ⟨remote.id⟩
    DisplayName := ⟨remote.displayName⟩
    Description := ⟨remote.description⟩
    Platform := ⟨remote.platform⟩
    Rule := ⟨remote.rule⟩
    AssignmentFilterManagementType := ⟨remote.assignmentFilterManagementType⟩
    CreatedDateTime := ⟨remote.createdDateTime⟩
    LastModifiedDateTime := ⟨remote.lastModifiedDateTime⟩
    RoleScopeTags := remote.roleScopeTags
    Payloads := remote.payloads.map (List.map mapRemotePayload) }

/-! ## Assignment filter CRUD handlers, `crud.go` variant

Each handler takes the outcome of its framework/remote interactions as
parameters: `plan?`/`state?` is the result of `req.Plan.Get` /
`req.State.Get` (an error produces error diagnostics), `timeout?` is an
error from reading the `timeouts` block (`none` = success), `construct`
is the resource's `constructResource`, and the Graph call results are
oracles. -/

/-- `Create` of `crud.go`: decode plan, read timeout, construct, POST,
capture the returned id, run the State Mapper, persist. -/
def AssignmentFilterResource.Create {β : Type}
    (plan? : Except String AssignmentFilterResourceModel)
    (timeout? : Option String)
    (construct : AssignmentFilterResourceModel → Except String β)
    (post : β → Except GraphError DeviceAndAppManagementAssignmentFilter) :
    HandlerResult AssignmentFilterResourceModel :=
  match plan? with
  | .error e => ⟨[.error "Error reading plan" e], .unchanged, false⟩
  | .ok plan =>
    match timeout? with
    | some e => ⟨[.error "Error reading timeouts" e], .unchanged, false⟩
    | none =>
      match construct plan with
      | .error err =>
        ⟨[.error "Error constructing assignment filter"
            ("Could not construct resource: " ++ err)], .unchanged, false⟩
      | .ok requestBody =>
        match post requestBody with
        | .error err =>
          ⟨[.error "Error creating assignment filter"
              ("Could not create assignment filter: " ++ err.message)],
            .unchanged, true⟩
        | .ok assignmentFilter =>
          -- `*assignmentFilter.GetId()` assumes a non-nil id; an absent
          -- id is modelled as the empty string.
          let plan' := { plan with ID := StringValue (assignmentFilter.id.getD "") }
          ⟨[], .set (mapRemoteStateToTerraform plan' assignmentFilter), true⟩

/-- `Read` of `crud.go`: early warning return on a null/empty id, then
GET; a not-found error removes the resource from state with a warning,
any other error is a hard error, success maps remote onto state. -/
def AssignmentFilterResource.Read
    (state? : Except String AssignmentFilterResourceModel)
    (timeout? : Option String)
    (get : Except GraphError DeviceAndAppManagementAssignmentFilter) :
    HandlerResult AssignmentFilterResourceModel :=
  match state? with
  | .error e => ⟨[.error "Error reading state" e], .unchanged, false⟩
  | .ok state =>
    if state.ID.IsNull || state.ID.ValueString == "" then
      ⟨[.warning "Unable to read assignment filter"
          "Assignment filter ID is empty or null. Unable to read assignment filter."],
        .unchanged, false⟩
    else
      match timeout? with
      | some e => ⟨[.error "Error reading timeouts" e], .unchanged, false⟩
      | none =>
        match get with
        | .error err =>
          if IsNotFoundError err then
            ⟨[.warning "Assignment filter not found"
                ("Assignment filter with ID " ++ state.ID.ValueString
                  ++ " was not found. Removing from state.")],
              .removed, true⟩
          else
            ⟨[.error "Error reading assignment filter"
                ("Could not read assignment filter with ID "
                  ++ state.ID.ValueString ++ ": " ++ err.message)],
              .unchanged, true⟩
        | .ok assignmentFilter =>
          ⟨[], .set (mapRemoteStateToTerraform state assignmentFilter), true⟩

/-- `Update` of `crud.go`: construct then PATCH; a not-found error
removes the resource from state with a warning only when the resource's
internal `isCreate` flag is unset, every other error is a hard error;
success persists the plan. -/
def AssignmentFilterResource.Update {β : Type} (isCreate : Bool)
    (plan? : Except String AssignmentFilterResourceModel)
    (timeout? : Option String)
    (construct : AssignmentFilterResourceModel → Except String β)
    (patch : β → Except GraphError Unit) :
    HandlerResult AssignmentFilterResourceModel :=
  match plan? with
  | .error e => ⟨[.error "Error reading plan" e], .unchanged, false⟩
  | .ok data =>
    match timeout? with
    | some e => ⟨[.error "Error reading timeouts" e], .unchanged, false⟩
    | none =>
      match construct data with
      | .error err =>
        ⟨[.error "Error constructing assignment filter"
            ("Could not construct resource: " ++ err)], .unchanged, false⟩
      | .ok requestBody =>
        match patch requestBody with
        | .error err =>
          if IsNotFoundError err && !isCreate then
            ⟨[.warning "Resource Not Found"
                ("The resource with ID " ++ data.ID.ValueString
                  ++ " was not found and will be removed from the state.")],
              .removed, true⟩
          else
            ⟨[.error "Error reading assignment filter"
                ("Could not update resource: " ++ err.message)],
              .unchanged, true⟩
        | .ok _ => ⟨[], .set data, true⟩

/-- `Delete` of `crud.go`: DELETE; any error is a hard error, success
unconditionally removes the state entry. -/
def AssignmentFilterResource.Delete
    (state? : Except String AssignmentFilterResourceModel)
    (timeout? : Option String)
    (del : Except GraphError Unit) :
    HandlerResult AssignmentFilterResourceModel :=
  match state? with
  | .error e => ⟨[.error "Error reading state" e], .unchanged, false⟩
  | .ok _ =>
    match timeout? with
    | some e => ⟨[.error "Error reading timeouts" e], .unchanged, false⟩
    | none =>
      match del with
      | .error err =>
        ⟨[.error "Client error when deleting" err.message], .unchanged, true⟩
      | .ok _ => ⟨[], .removed, true⟩

/-! ## Assignment filter CRUD handlers, older variant (`part_000`) -/

/-- `Create` of the older variant: POST, capture the returned id, then
persist the plan directly — the State Mapper is never invoked. -/
def AssignmentFilterResource.CreateV0 {β : Type}
    (plan? : Except String AssignmentFilterResourceModel)
    (timeout? : Option String)
    (construct : AssignmentFilterResourceModel → Except String β)
    (post : β → Except GraphError DeviceAndAppManagementAssignmentFilter) :
    HandlerResult AssignmentFilterResourceModel :=
  match plan? with
  | .error e => ⟨[.error "Error reading plan" e], .unchanged, false⟩
  | .ok data =>
    match timeout? with
    | some e => ⟨[.error "Error reading timeouts" e], .unchanged, false⟩
    | none =>
      match construct data with
      | .error err =>
        ⟨[.error "Error constructing assignment filter"
            ("Could not construct resource: " ++ err)], .unchanged, false⟩
      | .ok requestBody =>
        match post requestBody with
        | .error err =>
          ⟨[.error "Error creating assignment filter"
              ("Could not create assignment filter: " ++ err.message)],
            .unchanged, true⟩
        | .ok assignmentFilter =>
          ⟨[], .set { data with ID := StringValue (assignmentFilter.id.getD "") },
            true⟩

/-- `Read` of the older variant: GET; every error, a not-found error
included, is surfaced as a hard error and state is left as is. -/
def AssignmentFilterResource.ReadV0
    (state? : Except String AssignmentFilterResourceModel)
    (timeout? : Option String)
    (get : Except GraphError DeviceAndAppManagementAssignmentFilter) :
    HandlerResult AssignmentFilterResourceModel :=
  match state? with
  | .error e => ⟨[.error "Error reading state" e], .unchanged, false⟩
  | .ok data =>
    match timeout? with
    | some e => ⟨[.error "Error reading timeouts" e], .unchanged, false⟩
    | none =>
      match get with
      | .error err =>
        ⟨[.error "Error reading assignment filter"
            ("Could not read assignment filter: " ++ err.message)],
          .unchanged, true⟩
      | .ok remoteResource =>
        ⟨[], .set (mapRemoteStateToTerraform data remoteResource), true⟩

/-- `Update` of the older variant: construct then PATCH; every PATCH
error is surfaced as a hard error and state is left as is. -/
def AssignmentFilterResource.UpdateV0 {β : Type}
    (plan? : Except String AssignmentFilterResourceModel)
    (timeout? : Option String)
    (construct : AssignmentFilterResourceModel → Except String β)
    (patch : β → Except GraphError Unit) :
    HandlerResult AssignmentFilterResourceModel :=
  match plan? with
  | .error e => ⟨[.error "Error reading plan" e], .unchanged, false⟩
  | .ok data =>
    match timeout? with
    | some e => ⟨[.error "Error reading timeouts" e], .unchanged, false⟩
    | none =>
      match construct data with
      | .error err =>
        ⟨[.error "Error constructing assignment filter"
            ("Could not construct resource: " ++ err)], .unchanged, false⟩
      | .ok requestBody =>
        match patch requestBody with
        | .error err =>
          ⟨[.error "Error updating assignment filter"
              ("Could not update assignment filter: " ++ err.message)],
            .unchanged, true⟩
        | .ok _ => ⟨[], .set data, true⟩

/-- `Delete` of the older variant: identical to the `crud.go` one. -/
def AssignmentFilterResource.DeleteV0
    (state? : Except String AssignmentFilterResourceModel)
    (timeout? : Option String)
    (del : Except GraphError Unit) :
    HandlerResult AssignmentFilterResourceModel :=
  match state? with
  | .error e => ⟨[.error "Error reading state" e], .unchanged, false⟩
  | .ok _ =>
    match timeout? with
    | some e => ⟨[.error "Error reading timeouts" e], .unchanged, false⟩
    | none =>
      match del with
      | .error err =>
        ⟨[.error "Client error when deleting" err.message], .unchanged, true⟩
      | .ok _ => ⟨[], .removed, true⟩

/-! ## Conditional access policy: Graph SDK enum types

The `Parse*` functions below are the Graph SDK's generated enum parsers
(vendor code, not part of the provided sources).  Modelled from the
spec: parse the string value against the Graph API's known enumerators
and fail with an error naming the offending value otherwise. -/

/-- `models.ConditionalAccessPolicyState`. -/
inductive ConditionalAccessPolicyState where
  | enabled
  | disabled
  | enabledForReportingButNotEnforced
deriving DecidableEq, Repr

/-- `models.ParseConditionalAccessPolicyState`. -/
def ParseConditionalAccessPolicyState (v : String) :
    Except String ConditionalAccessPolicyState :=
  match v with
  | "enabled" => .ok .enabled
  | "disabled" => .ok .disabled
  | "enabledForReportingButNotEnforced" => .ok .enabledForReportingButNotEnforced
  | _ => .error (v ++ " is not a valid ConditionalAccessPolicyState")

/-- `models.ConditionalAccessClientApp`. -/
inductive ConditionalAccessClientApp where
  | all
  | browser
  | mobileAppsAndDesktopClients
  | exchangeActiveSync
  | easSupported
  | other
  | unknownFutureValue
deriving DecidableEq, Repr

/-- `models.ParseConditionalAccessClientApp`. -/
def ParseConditionalAccessClientApp (v : String) :
    Except String ConditionalAccessClientApp :=
  match v with
  | "all" => .ok .all
  | "browser" => .ok .browser
  | "mobileAppsAndDesktopClients" => .ok .mobileAppsAndDesktopClients
  | "exchangeActiveSync" => .ok .exchangeActiveSync
  | "easSupported" => .ok .easSupported
  | "other" => .ok .other
  | "unknownFutureValue" => .ok .unknownFutureValue
  | _ => .error (v ++ " is not a valid ConditionalAccessClientApp")

/-- `models.RiskLevel`. -/
inductive RiskLevel where
  | low
  | medium
  | high
  | hidden
  | none
  | unknownFutureValue
deriving DecidableEq, Repr

/-- `models.ParseRiskLevel`. -/
def ParseRiskLevel (v : String) : Except String RiskLevel :=
  match v with
  | "low" => .ok .low
  | "medium" => .ok .medium
  | "high" => .ok .high
  | "hidden" => .ok .hidden
  | "none" => .ok RiskLevel.none
  | "unknownFutureValue" => .ok .unknownFutureValue
  | _ => .error (v ++ " is not a valid RiskLevel")

/-- `models.ConditionalAccessInsiderRiskLevels`. -/
inductive ConditionalAccessInsiderRiskLevels where
  | minor
  | moderate
  | elevated
  | unknownFutureValue
deriving DecidableEq, Repr

/-- `models.ParseConditionalAccessInsiderRiskLevels`. -/
def ParseConditionalAccessInsiderRiskLevels (v : String) :
    Except String ConditionalAccessInsiderRiskLevels :=
  match v with
  | "minor" => .ok .minor
  | "moderate" => .ok .moderate
  | "elevated" => .ok .elevated
  | "unknownFutureValue" => .ok .unknownFutureValue
  | _ => .error (v ++ " is not a valid ConditionalAccessInsiderRiskLevels")

/-- `models.ConditionalAccessGuestOrExternalUserTypes` (a flags enum;
single members are modelled, which is all the constructor exercises). -/
inductive ConditionalAccessGuestOrExternalUserTypes where
  | none
  | internalGuest
  | b2bCollaborationGuest
  | b2bCollaborationMember
  | b2bDirectConnectUser
  | otherExternalUser
  | serviceProvider
  | unknownFutureValue
deriving DecidableEq, Repr

/-- `models.ParseConditionalAccessGuestOrExternalUserTypes`. -/
def ParseConditionalAccessGuestOrExternalUserTypes (v : String) :
    Except String ConditionalAccessGuestOrExternalUserTypes :=
  match v with
  | "none" => .ok ConditionalAccessGuestOrExternalUserTypes.none
  | "internalGuest" => .ok .internalGuest
  | "b2bCollaborationGuest" => .ok .b2bCollaborationGuest
  | "b2bCollaborationMember" => .ok .b2bCollaborationMember
  | "b2bDirectConnectUser" => .ok .b2bDirectConnectUser
  | "otherExternalUser" => .ok .otherExternalUser
  | "serviceProvider" => .ok .serviceProvider
  | "unknownFutureValue" => .ok .unknownFutureValue
  | _ => .error (v ++ " is not a valid ConditionalAccessGuestOrExternalUserTypes")

/-- `models.ConditionalAccessGrantControlOperator` (`AND` / `OR`). -/
inductive ConditionalAccessGrantControlOperator where
  | AND
  | OR
deriving DecidableEq, Repr

/-- `models.ParseConditionalAccessGrantControlOperator`. -/
def ParseConditionalAccessGrantControlOperator (v : String) :
    Except String ConditionalAccessGrantControlOperator :=
  match v with
  | "AND" => .ok .AND
  | "OR" => .ok .OR
  | _ => .error (v ++ " is not a valid ConditionalAccessGrantControlOperator")

/-- `models.ConditionalAccessGrantControl`. -/
inductive ConditionalAccessGrantControl where
  | block
  | mfa
  | compliantDevice
  | domainJoinedDevice
  | approvedApplication
  | compliantApplication
  | passwordChange
  | unknownFutureValue
deriving DecidableEq, Repr

/-- `models.ParseConditionalAccessGrantControl`. -/
def ParseConditionalAccessGrantControl (v : String) :
    Except String ConditionalAccessGrantControl :=
  match v with
  | "block" => .ok .block
  | "mfa" => .ok .mfa
  | "compliantDevice" => .ok .compliantDevice
  | "domainJoinedDevice" => .ok .domainJoinedDevice
  | "approvedApplication" => .ok .approvedApplication
  | "compliantApplication" => .ok .compliantApplication
  | "passwordChange" => .ok .passwordChange
  | "unknownFutureValue" => .ok .unknownFutureValue
  | _ => .error (v ++ " is not a valid ConditionalAccessGrantControl")

/-- `models.ContinuousAccessEvaluationMode`. -/
inductive ContinuousAccessEvaluationMode where
  | strictEnforcement
  | disabled
  | unknownFutureValue
  | strictLocation
deriving DecidableEq, Repr

/-- `models.ParseContinuousAccessEvaluationMode`. -/
def ParseContinuousAccessEvaluationMode (v : String) :
    Except String ContinuousAccessEvaluationMode :=
  match v with
  | "strictEnforcement" => .ok .strictEnforcement
  | "disabled" => .ok .disabled
  | "unknownFutureValue" => .ok .unknownFutureValue
  | "strictLocation" => .ok .strictLocation
  | _ => .error (v ++ " is not a valid ContinuousAccessEvaluationMode")

/-- `models.PersistentBrowserSessionMode`. -/
inductive PersistentBrowserSessionMode where
  | always
  | never
deriving DecidableEq, Repr

/-- `models.ParsePersistentBrowserSessionMode`. -/
def ParsePersistentBrowserSessionMode (v : String) :
    Except String PersistentBrowserSessionMode :=
  match v with
  | "always" => .ok .always
  | "never" => .ok .never
  | _ => .error (v ++ " is not a valid PersistentBrowserSessionMode")

/-- `models.SigninFrequencyType` (`days` / `hours`). -/
inductive SigninFrequencyType where
  | days
  | hours
deriving DecidableEq, Repr

/-- `models.ParseSigninFrequencyType`. -/
def ParseSigninFrequencyType (v : String) : Except String SigninFrequencyType :=
  match v with
  | "days" => .ok .days
  | "hours" => .ok .hours
  | _ => .error (v ++ " is not a valid SigninFrequencyType")

/-- `models.SignInFrequencyInterval`. -/
inductive SignInFrequencyInterval where
  | timeBased
  | everyTime
  | unknownFutureValue
deriving DecidableEq, Repr

/-- `models.ParseSignInFrequencyInterval`. -/
def ParseSignInFrequencyInterval (v : String) :
    Except String SignInFrequencyInterval :=
  match v with
  | "timeBased" => .ok .timeBased
  | "everyTime" => .ok .everyTime
  | "unknownFutureValue" => .ok .unknownFutureValue
  | _ => .error (v ++ " is not a valid SignInFrequencyInterval")

/-- `models.SignInFrequencyAuthenticationType`. -/
inductive SignInFrequencyAuthenticationType where
  | primaryAndSecondaryAuthentication
  | secondaryAuthentication
  | unknownFutureValue
deriving DecidableEq, Repr

/-- `models.ParseSignInFrequencyAuthenticationType`. -/
def ParseSignInFrequencyAuthenticationType (v : String) :
    Except String SignInFrequencyAuthenticationType :=
  match v with
  | "primaryAndSecondaryAuthentication" => .ok .primaryAndSecondaryAuthentication
  | "secondaryAuthentication" => .ok .secondaryAuthentication
  | "unknownFutureValue" => .ok .unknownFutureValue
  | _ => .error (v ++ " is not a valid SignInFrequencyAuthenticationType")

/-! ## Conditional access policy: attribute models

Structures marked "Modelled from the spec" correspond to nested models
whose constructor bodies are referenced by `constructConditions` but are
absent from the provided sources. -/

/-- `ConditionalAccessApplicationsModel`. -/
structure ConditionalAccessApplicationsModel where
  IncludeApplications : List TFString := []
  ExcludeApplications : List TFString := []
  IncludeUserActions : List TFString := []
deriving DecidableEq, Repr

/-- `ConditionalAccessExternalTenantsModel`. -/
structure ConditionalAccessExternalTenantsModel where
  TenantIds : List TFString := []
deriving DecidableEq, Repr

/-- `ConditionalAccessGuestsOrExternalUsersModel`. -/
structure ConditionalAccessGuestsOrExternalUsersModel where
  GuestOrExternalUserTypes : TFString := StringNull
  ExternalTenants : Option ConditionalAccessExternalTenantsModel := none
deriving DecidableEq, Repr

/-- `ConditionalAccessUsersModel`. -/
structure ConditionalAccessUsersModel where
  IncludeUsers : List TFString := []
  ExcludeUsers : List TFString := []
  IncludeGroups : List TFString := []
  ExcludeGroups : List TFString := []
  IncludeRoles : List TFString := []
  ExcludeRoles : List TFString := []
  IncludeGuestsOrExternalUsers : Option ConditionalAccessGuestsOrExternalUsersModel := none
  ExcludeGuestsOrExternalUsers : Option ConditionalAccessGuestsOrExternalUsersModel := none
deriving DecidableEq, Repr

/-- `ConditionalAccessClientApplicationsModel`. -/
structure ConditionalAccessClientApplicationsModel where
  IncludeServicePrincipals : List TFString := []
  ExcludeServicePrincipals : List TFString := []
deriving DecidableEq, Repr

/-- Modelled from the spec: the authentication flows sub-model (its
constructor is referenced but absent from the provided sources). -/
structure ConditionalAccessAuthenticationFlowsModel where
  TransferMethods : TFString := StringNull
deriving DecidableEq, Repr

/-- Modelled from the spec: the devices sub-model. -/
structure ConditionalAccessDevicesModel where
  IncludeDevices : List TFString := []
  ExcludeDevices : List TFString := []
deriving DecidableEq, Repr

/-- Modelled from the spec: the (deprecated) device states sub-model. -/
structure ConditionalAccessDeviceStatesModel where
  IncludeStates : List TFString := []
  ExcludeStates : List TFString := []
deriving DecidableEq, Repr

/-- Modelled from the spec: the locations sub-model. -/
structure ConditionalAccessLocationsModel where
  IncludeLocations : List TFString := []
  ExcludeLocations : List TFString := []
deriving DecidableEq, Repr

/-- Modelled from the spec: the platforms sub-model. -/
structure ConditionalAccessPlatformsModel where
  IncludePlatforms : List TFString := []
  ExcludePlatforms : List TFString := []
deriving DecidableEq, Repr

/-- `ConditionalAccessConditionsModel`. -/
structure ConditionalAccessConditionsModel where
  Applications : Option ConditionalAccessApplicationsModel := none
  AuthenticationFlows : Option ConditionalAccessAuthenticationFlowsModel := none
  ClientApplications : Option ConditionalAccessClientApplicationsModel := none
  ClientAppTypes : List TFString := []
  Devices : Option ConditionalAccessDevicesModel := none
  DeviceStates : Option ConditionalAccessDeviceStatesModel := none
  InsiderRiskLevels : TFString := StringNull
  Locations : Option ConditionalAccessLocationsModel := none
  Platforms : Option ConditionalAccessPlatformsModel := none
  ServicePrincipalRiskLevels : List TFString := []
  SignInRiskLevels : List TFString := []
  UserRiskLevels : List TFString := []
  Users : Option ConditionalAccessUsersModel := none
deriving DecidableEq, Repr

/-- `AuthenticationStrengthPolicyModel`. -/
structure AuthenticationStrengthPolicyModel where
  DisplayName : TFString := StringNull
  Description : TFString := StringNull
  PolicyType : TFString := StringNull
  RequirementsSatisfied : TFString := StringNull
  AllowedCombinations : List TFString := []
deriving DecidableEq, Repr

/-- `ConditionalAccessGrantControlsModel`. -/
structure ConditionalAccessGrantControlsModel where
  Operator : TFString := StringNull
  BuiltInControls : List TFString := []
  CustomAuthenticationFactors : List TFString := []
  TermsOfUse : List TFString := []
  AuthenticationStrength : Option AuthenticationStrengthPolicyModel := none
deriving DecidableEq, Repr

/-- The `application_enforced_restrictions` session control sub-model. -/
structure ApplicationEnforcedRestrictionsModel where
  IsEnabled : TFBool := BoolNull
deriving DecidableEq, Repr

/-- The `continuous_access_evaluation` session control sub-model. -/
structure ContinuousAccessEvaluationModel where
  Mode : TFString := StringNull
deriving DecidableEq, Repr

/-- The `persistent_browser` session control sub-model. -/
structure PersistentBrowserModel where
  IsEnabled : TFBool := BoolNull
  Mode : TFString := StringNull
deriving DecidableEq, Repr

/-- The `sign_in_frequency` session control sub-model (the Go field
`Type` is spelled `type` here since `Type` is reserved in Lean). -/
structure SignInFrequencyModel where
  IsEnabled : TFBool := BoolNull
  type : TFString := StringNull
  Value : TFInt32 := ⟨Option.none⟩
  FrequencyInterval : TFString := StringNull
  AuthenticationType : TFString := StringNull
deriving DecidableEq, Repr

/-- The `secure_sign_in_session` session control sub-model. -/
structure SecureSignInSessionModel where
  IsEnabled : TFBool := BoolNull
deriving DecidableEq, Repr

/-- `ConditionalAccessSessionControlsModel`. -/
structure ConditionalAccessSessionControlsModel where
  ApplicationEnforcedRestrictions : Option ApplicationEnforcedRestrictionsModel := none
  ContinuousAccessEvaluation : Option ContinuousAccessEvaluationModel := none
  PersistentBrowser : Option PersistentBrowserModel := none
  SignInFrequency : Option SignInFrequencyModel := none
  SecureSignInSession : Option SecureSignInSessionModel := none
  DisableResilienceDefaults : TFBool := BoolNull
deriving DecidableEq, Repr

/-- `ConditionalAccessPolicyResourceModel` (the fields consumed by
`constructResource`). -/
structure ConditionalAccessPolicyResourceModel where
  DisplayName : TFString := StringNull
  Description : TFString := StringNull
  State : TFString := StringNull
  Conditions : Option ConditionalAccessConditionsModel := none
  GrantControls : Option ConditionalAccessGrantControlsModel := none
  SessionControls : Option ConditionalAccessSessionControlsModel := none
deriving DecidableEq, Repr

/-! ## Conditional access policy: Graph SDK request models

Each `models.NewX()` starts with every field unset; a `SetY` call makes
the field present on the wire.  Fields never set are omitted from the
serialized request body. -/

/-- `models.ConditionalAccessApplications`. -/
structure ConditionalAccessApplications where
  includeApplications : Option (List String) := none
  excludeApplications : Option (List String) := none
  includeUserActions : Option (List String) := none
deriving DecidableEq, Repr

/-- `models.ConditionalAccessExternalTenants`. -/
structure ConditionalAccessExternalTenants where
  tenantIds : Option (List String) := none
deriving DecidableEq, Repr

/-- `models.ConditionalAccessGuestsOrExternalUsers`. -/
structure ConditionalAccessGuestsOrExternalUsers where
  guestOrExternalUserTypes : Option ConditionalAccessGuestOrExternalUserTypes := none
  externalTenants : Option ConditionalAccessExternalTenants := none
deriving DecidableEq, Repr

/-- `models.ConditionalAccessUsers`. -/
structure ConditionalAccessUsers where
  includeUsers : Option (List String) := none
  excludeUsers : Option (List String) := none
  includeGroups : Option (List String) := none
  excludeGroups : Option (List String) := none
  includeRoles : Option (List String) := none
  excludeRoles : Option (List String) := none
  includeGuestsOrExternalUsers : Option ConditionalAccessGuestsOrExternalUsers := none
  excludeGuestsOrExternalUsers : Option ConditionalAccessGuestsOrExternalUsers := none
deriving DecidableEq, Repr

/-- `models.ConditionalAccessClientApplications`. -/
structure ConditionalAccessClientApplications where
  includeServicePrincipals : Option (List String) := none
  excludeServicePrincipals : Option (List String) := none
deriving DecidableEq, Repr

/-- Modelled from the spec: the authentication flows request model. -/
structure ConditionalAccessAuthenticationFlows where
  transferMethods : Option String := none
deriving DecidableEq, Repr

/-- Modelled from the spec: the devices request model. -/
structure ConditionalAccessDevices where
  includeDevices : Option (List String) := none
  excludeDevices : Option (List String) := none
deriving DecidableEq, Repr

/-- Modelled from the spec: the device states request model. -/
structure ConditionalAccessDeviceStates where
  includeStates : Option (List String) := none
  excludeStates : Option (List String) := none
deriving DecidableEq, Repr

/-- Modelled from the spec: the locations request model. -/
structure ConditionalAccessLocations where
  includeLocations : Option (List String) := none
  excludeLocations : Option (List String) := none
deriving DecidableEq, Repr

/-- Modelled from the spec: the platforms request model. -/
structure ConditionalAccessPlatforms where
  includePlatforms : Option (List String) := none
  excludePlatforms : Option (List String) := none
deriving DecidableEq, Repr

/-- `models.ConditionalAccessConditionSet`. -/
structure ConditionalAccessConditionSet where
  applications : Option ConditionalAccessApplications := none
  authenticationFlows : Option ConditionalAccessAuthenticationFlows := none
  clientApplications : Option ConditionalAccessClientApplications := none
  clientAppTypes : Option (List ConditionalAccessClientApp) := none
  devices : Option ConditionalAccessDevices := none
  deviceStates : Option ConditionalAccessDeviceStates := none
  insiderRiskLevels : Option ConditionalAccessInsiderRiskLevels := none
  locations : Option ConditionalAccessLocations := none
  platforms : Option ConditionalAccessPlatforms := none
  servicePrincipalRiskLevels : Option (List RiskLevel) := none
  signInRiskLevels : Option (List RiskLevel) := none
  userRiskLevels : Option (List RiskLevel) := none
  users : Option ConditionalAccessUsers := none
deriving DecidableEq, Repr

/-- `models.AuthenticationStrengthPolicy`. -/
structure AuthenticationStrengthPolicy where
  displayName : Option String := none
  description : Option String := none
  policyType : Option String := none
  requirementsSatisfied : Option String := none
  allowedCombinations : Option (List String) := none
deriving DecidableEq, Repr

/-- `models.ConditionalAccessGrantControls`. -/
structure ConditionalAccessGrantControls where
  operator : Option ConditionalAccessGrantControlOperator := none
  builtInControls : Option (List ConditionalAccessGrantControl) := none
  customAuthenticationFactors : Option (List String) := none
  termsOfUse : Option (List String) := none
  authenticationStrength : Option AuthenticationStrengthPolicy := none
deriving DecidableEq, Repr

/-- `models.ApplicationEnforcedRestrictionsSessionControl`. -/
structure ApplicationEnforcedRestrictionsSessionControl where
  isEnabled : Option Bool := none
deriving DecidableEq, Repr

/-- `models.ContinuousAccessEvaluationSessionControl`. -/
structure ContinuousAccessEvaluationSessionControl where
  mode : Option ContinuousAccessEvaluationMode := none
deriving DecidableEq, Repr

/-- `models.PersistentBrowserSessionControl`. -/
structure PersistentBrowserSessionControl where
  isEnabled : Option Bool := none
  mode : Option PersistentBrowserSessionMode := none
deriving DecidableEq, Repr

/-- `models.SignInFrequencySessionControl` (the SDK setter for the
frequency type is `SetTypeEscaped`, hence the field name). -/
structure SignInFrequencySessionControl where
  isEnabled : Option Bool := none
  typeEscaped : Option SigninFrequencyType := none
  value : Option Int := none
  frequencyInterval : Option SignInFrequencyInterval := none
  authenticationType : Option SignInFrequencyAuthenticationType := none
deriving DecidableEq, Repr

/-- `models.SecureSignInSessionControl`. -/
structure SecureSignInSessionControl where
  isEnabled : Option Bool := none
deriving DecidableEq, Repr

/-- `models.ConditionalAccessSessionControls`. -/
structure ConditionalAccessSessionControls where
  applicationEnforcedRestrictions : Option ApplicationEnforcedRestrictionsSessionControl := none
  continuousAccessEvaluation : Option ContinuousAccessEvaluationSessionControl := none
  persistentBrowser : Option PersistentBrowserSessionControl := none
  signInFrequency : Option SignInFrequencySessionControl := none
  secureSignInSession : Option SecureSignInSessionControl := none
  disableResilienceDefaults : Option Bool := none
deriving DecidableEq, Repr

/-- `models.ConditionalAccessPolicy`. -/
structure ConditionalAccessPolicy where
  displayName : Option String := none
  description : Option String := none
  state : Option ConditionalAccessPolicyState := none
  conditions : Option ConditionalAccessConditionSet := none
  grantControls : Option ConditionalAccessGrantControls := none
  sessionControls : Option ConditionalAccessSessionControls := none
deriving DecidableEq, Repr

/-- Wraps the error of a fallible step with a message, mirroring the
`fmt.Errorf("...: %v", err)` wrapping in the source. -/
def wrapErr {α : Type} (msg : String) : Except String α → Except String α
  | .ok a => .ok a
  | .error e => .error (msg ++ e)

/-- `constructApplications`: list fields are mapped element-wise in
order and omitted when the source list is empty. -/
def constructApplications (data : Option ConditionalAccessApplicationsModel) :
    Except String (Option ConditionalAccessApplications) := do
  let some data := data | return none
  let mut applications : ConditionalAccessApplications := {}
  if data.IncludeApplications.length > 0 then
    applications := { applications with
      includeApplications := some (data.IncludeApplications.map TFString.ValueString) }
  if data.ExcludeApplications.length > 0 then
    applications := { applications with
      excludeApplications := some (data.ExcludeApplications.map TFString.ValueString) }
  if data.IncludeUserActions.length > 0 then
    applications := { applications with
      includeUserActions := some (data.IncludeUserActions.map TFString.ValueString) }
  return some applications

/-- `constructConditionalAccessExternalTenants` (the source skips the
membership kind, which the SDK model lacks). -/
def constructConditionalAccessExternalTenants
    (data : Option ConditionalAccessExternalTenantsModel) :
    Except String (Option ConditionalAccessExternalTenants) := do
  let some data := data | return none
  let mut externalTenants : ConditionalAccessExternalTenants := {}
  if data.TenantIds.length > 0 then
    externalTenants := { externalTenants with
      tenantIds := some (data.TenantIds.map TFString.ValueString) }
  return some externalTenants

/-- `constructGuestsOrExternalUsers`. -/
def constructGuestsOrExternalUsers
    (data : Option ConditionalAccessGuestsOrExternalUsersModel) :
    Except String (Option ConditionalAccessGuestsOrExternalUsers) := do
  let some data := data | return none
  let mut guestsOrExternalUsers : ConditionalAccessGuestsOrExternalUsers := {}
  if !data.GuestOrExternalUserTypes.IsNull then
    let guestOrExternalUserTypes ← wrapErr "error parsing guest or external user types: "
      (ParseConditionalAccessGuestOrExternalUserTypes data.GuestOrExternalUserTypes.ValueString)
    guestsOrExternalUsers := { guestsOrExternalUsers with
      guestOrExternalUserTypes := some guestOrExternalUserTypes }
  match data.ExternalTenants with
  | some _ =>
    let externalTenants ← wrapErr "error constructing external tenants: "
      (constructConditionalAccessExternalTenants data.ExternalTenants)
    guestsOrExternalUsers := { guestsOrExternalUsers with
      externalTenants := externalTenants }
  | none => pure ()
  return some guestsOrExternalUsers

/-- `constructUsers`. -/
def constructUsers (data : Option ConditionalAccessUsersModel) :
    Except String (Option ConditionalAccessUsers) := do
  let some data := data | return none
  let mut users : ConditionalAccessUsers := {}
  if data.IncludeUsers.length > 0 then
    users := { users with includeUsers := some (data.IncludeUsers.map TFString.ValueString) }
  if data.ExcludeUsers.length > 0 then
    users := { users with excludeUsers := some (data.ExcludeUsers.map TFString.ValueString) }
  if data.IncludeGroups.length > 0 then
    users := { users with includeGroups := some (data.IncludeGroups.map TFString.ValueString) }
  if data.ExcludeGroups.length > 0 then
    users := { users with excludeGroups := some (data.ExcludeGroups.map TFString.ValueString) }
  if data.IncludeRoles.length > 0 then
    users := { users with includeRoles := some (data.IncludeRoles.map TFString.ValueString) }
  if data.ExcludeRoles.length > 0 then
    users := { users with excludeRoles := some (data.ExcludeRoles.map TFString.ValueString) }
  match data.IncludeGuestsOrExternalUsers with
  | some _ =>
    let guestsOrExternalUsers ← wrapErr "error constructing include guests or external users: "
      (constructGuestsOrExternalUsers data.IncludeGuestsOrExternalUsers)
    users := { users with includeGuestsOrExternalUsers := guestsOrExternalUsers }
  | none => pure ()
  match data.ExcludeGuestsOrExternalUsers with
  | some _ =>
    let guestsOrExternalUsers ← wrapErr "error constructing exclude guests or external users: "
      (constructGuestsOrExternalUsers data.ExcludeGuestsOrExternalUsers)
    users := { users with excludeGuestsOrExternalUsers := guestsOrExternalUsers }
  | none => pure ()
  return some users

/-- `constructClientApplications`. -/
def constructClientApplications
    (data : Option ConditionalAccessClientApplicationsModel) :
    Except String (Option ConditionalAccessClientApplications) := do
  let some data := data | return none
  let mut clientApps : ConditionalAccessClientApplications := {}
  if data.IncludeServicePrincipals.length > 0 then
    clientApps := { clientApps with
      includeServicePrincipals := some (data.IncludeServicePrincipals.map TFString.ValueString) }
  if data.ExcludeServicePrincipals.length > 0 then
    clientApps := { clientApps with
      excludeServicePrincipals := some (data.ExcludeServicePrincipals.map TFString.ValueString) }
  return some clientApps

/-- Modelled from the spec: `constructAuthenticationFlows` is referenced
by `constructConditions` but absent from the provided sources; optional
fields are skipped when unset. -/
def constructAuthenticationFlows
    (data : Option ConditionalAccessAuthenticationFlowsModel) :
    Except String (Option ConditionalAccessAuthenticationFlows) := do
  let some data := data | return none
  let mut authFlows : ConditionalAccessAuthenticationFlows := {}
  if !data.TransferMethods.IsNull then
    authFlows := { authFlows with transferMethods := some data.TransferMethods.ValueString }
  return some authFlows

/-- Modelled from the spec: `constructDevices` is referenced but absent
from the provided sources; list fields map element-wise and are omitted
when empty. -/
def constructDevices (data : Option ConditionalAccessDevicesModel) :
    Except String (Option ConditionalAccessDevices) := do
  let some data := data | return none
  let mut devices : ConditionalAccessDevices := {}
  if data.IncludeDevices.length > 0 then
    devices := { devices with includeDevices := some (data.IncludeDevices.map TFString.ValueString) }
  if data.ExcludeDevices.length > 0 then
    devices := { devices with excludeDevices := some (data.ExcludeDevices.map TFString.ValueString) }
  return some devices

/-- Modelled from the spec: `constructDeviceStates` is referenced but
absent from the provided sources. -/
def constructDeviceStates (data : Option ConditionalAccessDeviceStatesModel) :
    Except String (Option ConditionalAccessDeviceStates) := do
  let some data := data | return none
  let mut deviceStates : ConditionalAccessDeviceStates := {}
  if data.IncludeStates.length > 0 then
    deviceStates := { deviceStates with includeStates := some (data.IncludeStates.map TFString.ValueString) }
  if data.ExcludeStates.length > 0 then
    deviceStates := { deviceStates with excludeStates := some (data.ExcludeStates.map TFString.ValueString) }
  return some deviceStates

/-- Modelled from the spec: `constructLocations` is referenced but
absent from the provided sources. -/
def constructLocations (data : Option ConditionalAccessLocationsModel) :
    Except String (Option ConditionalAccessLocations) := do
  let some data := data | return none
  let mut locations : ConditionalAccessLocations := {}
  if data.IncludeLocations.length > 0 then
    locations := { locations with includeLocations := some (data.IncludeLocations.map TFString.ValueString) }
  if data.ExcludeLocations.length > 0 then
    locations := { locations with excludeLocations := some (data.ExcludeLocations.map TFString.ValueString) }
  return some locations

/-- Modelled from the spec: `constructPlatforms` is referenced but
absent from the provided sources. -/
def constructPlatforms (data : Option ConditionalAccessPlatformsModel) :
    Except String (Option ConditionalAccessPlatforms) := do
  let some data := data | return none
  let mut platforms : ConditionalAccessPlatforms := {}
  if data.IncludePlatforms.length > 0 then
    platforms := { platforms with includePlatforms := some (data.IncludePlatforms.map TFString.ValueString) }
  if data.ExcludePlatforms.length > 0 then
    platforms := { platforms with excludePlatforms := some (data.ExcludePlatforms.map TFString.ValueString) }
  return some platforms

/-- `constructConditions`: each present sub-model is constructed and
set; absent sub-models and empty lists are left unset. -/
def constructConditions (data : Option ConditionalAccessConditionsModel) :
    Except String (Option ConditionalAccessConditionSet) := do
  let some data := data | return none
  let mut conditions : ConditionalAccessConditionSet := {}
  match data.Applications with
  | some _ =>
    let applications ← wrapErr "error constructing applications: "
      (constructApplications data.Applications)
    conditions := { conditions with applications := applications }
  | none => pure ()
  match data.AuthenticationFlows with
  | some _ =>
    let authFlows ← wrapErr "error constructing authentication flows: "
      (constructAuthenticationFlows data.AuthenticationFlows)
    conditions := { conditions with authenticationFlows := authFlows }
  | none => pure ()
  match data.ClientApplications with
  | some _ =>
    let clientApps ← wrapErr "error constructing client applications: "
      (constructClientApplications data.ClientApplications)
    conditions := { conditions with clientApplications := clientApps }
  | none => pure ()
  if data.ClientAppTypes.length > 0 then
    let clientAppTypes ← wrapErr "error parsing client app type: "
      (data.ClientAppTypes.mapM fun appType =>
        ParseConditionalAccessClientApp appType.ValueString)
    conditions := { conditions with clientAppTypes := some clientAppTypes }
  match data.Devices with
  | some _ =>
    let devices ← wrapErr "error constructing devices: "
      (constructDevices data.Devices)
    conditions := { conditions with devices := devices }
  | none => pure ()
  match data.DeviceStates with
  | some _ =>
    let deviceStates ← wrapErr "error constructing device states: "
      (constructDeviceStates data.DeviceStates)
    conditions := { conditions with deviceStates := deviceStates }
  | none => pure ()
  if !data.InsiderRiskLevels.IsNull then
    let insiderRiskLevel ← wrapErr "error parsing insider risk level: "
      (ParseConditionalAccessInsiderRiskLevels data.InsiderRiskLevels.ValueString)
    conditions := { conditions with insiderRiskLevels := some insiderRiskLevel }
  match data.Locations with
  | some _ =>
    let locations ← wrapErr "error constructing locations: "
      (constructLocations data.Locations)
    conditions := { conditions with locations := locations }
  | none => pure ()
  match data.Platforms with
  | some _ =>
    let platforms ← wrapErr "error constructing platforms: "
      (constructPlatforms data.Platforms)
    conditions := { conditions with platforms := platforms }
  | none => pure ()
  if data.ServicePrincipalRiskLevels.length > 0 then
    let riskLevels ← wrapErr "error parsing service principal risk level: "
      (data.ServicePrincipalRiskLevels.mapM fun level => ParseRiskLevel level.ValueString)
    conditions := { conditions with servicePrincipalRiskLevels := some riskLevels }
  if data.SignInRiskLevels.length > 0 then
    let riskLevels ← wrapErr "error parsing sign-in risk level: "
      (data.SignInRiskLevels.mapM fun level => ParseRiskLevel level.ValueString)
    conditions := { conditions with signInRiskLevels := some riskLevels }
  if data.UserRiskLevels.length > 0 then
    let riskLevels ← wrapErr "error parsing user risk level: "
      (data.UserRiskLevels.mapM fun level => ParseRiskLevel level.ValueString)
    conditions := { conditions with userRiskLevels := some riskLevels }
  match data.Users with
  | some _ =>
    let users ← wrapErr "error constructing users: "
      (constructUsers data.Users)
    conditions := { conditions with users := users }
  | none => pure ()
  return some conditions

/-- `constructAuthenticationStrength`. -/
def constructAuthenticationStrength (data : Option AuthenticationStrengthPolicyModel) :
    Except String (Option AuthenticationStrengthPolicy) := do
  let some data := data | return none
  let mut authStrength : AuthenticationStrengthPolicy := {}
  if !data.DisplayName.IsNull then
    authStrength := { authStrength with displayName := some data.DisplayName.ValueString }
  if !data.Description.IsNull then
    authStrength := { authStrength with description := some data.Description.ValueString }
  if !data.PolicyType.IsNull then
    authStrength := { authStrength with policyType := some data.PolicyType.ValueString }
  if !data.RequirementsSatisfied.IsNull then
    authStrength := { authStrength with
      requirementsSatisfied := some data.RequirementsSatisfied.ValueString }
  if data.AllowedCombinations.length > 0 then
    authStrength := { authStrength with
      allowedCombinations := some (data.AllowedCombinations.map TFString.ValueString) }
  return some authStrength

/-- `constructGrantControls`. -/
def constructGrantControls (data : Option ConditionalAccessGrantControlsModel) :
    Except String (Option ConditionalAccessGrantControls) := do
  let some data := data | return none
  let mut grantControls : ConditionalAccessGrantControls := {}
  if !data.Operator.IsNull then
    let operator ← wrapErr "error parsing grant control operator: "
      (ParseConditionalAccessGrantControlOperator data.Operator.ValueString)
    grantControls := { grantControls with operator := some operator }
  if data.BuiltInControls.length > 0 then
    let builtInControls ← wrapErr "error parsing built-in control: "
      (data.BuiltInControls.mapM fun control =>
        ParseConditionalAccessGrantControl control.ValueString)
    grantControls := { grantControls with builtInControls := some builtInControls }
  if data.CustomAuthenticationFactors.length > 0 then
    grantControls := { grantControls with
      customAuthenticationFactors := some (data.CustomAuthenticationFactors.map TFString.ValueString) }
  if data.TermsOfUse.length > 0 then
    grantControls := { grantControls with
      termsOfUse := some (data.TermsOfUse.map TFString.ValueString) }
  match data.AuthenticationStrength with
  | some _ =>
    let authStrength ← wrapErr "error constructing authentication strength: "
      (constructAuthenticationStrength data.AuthenticationStrength)
    grantControls := { grantControls with authenticationStrength := authStrength }
  | none => pure ()
  return some grantControls

/-- `constructSessionControls`.  The source contains the application
enforced restrictions block twice in a row (a verbatim duplicate); both
occurrences are kept.  The final `SetDisableResilienceDefaults` call is
unconditional: a null `disable_resilience_defaults` attribute is still
written to the request as the zero value `false`. -/
def constructSessionControls (data : Option ConditionalAccessSessionControlsModel) :
    Except String (Option ConditionalAccessSessionControls) := do
  let some data := data | return none
  let mut sessionControls : ConditionalAccessSessionControls := {}
  match data.ApplicationEnforcedRestrictions with
  | some aer =>
    let appRestrictions : ApplicationEnforcedRestrictionsSessionControl :=
      { isEnabled := some aer.IsEnabled.ValueBool }
    sessionControls := { sessionControls with
      applicationEnforcedRestrictions := some appRestrictions }
  | none => pure ()
  match data.ApplicationEnforcedRestrictions with
  | some aer =>
    let appRestrictions : ApplicationEnforcedRestrictionsSessionControl :=
      { isEnabled := some aer.IsEnabled.ValueBool }
    sessionControls := { sessionControls with
      applicationEnforcedRestrictions := some appRestrictions }
  | none => pure ()
  match data.ContinuousAccessEvaluation with
  | some cae =>
    let mut continuousAccessEvaluation : ContinuousAccessEvaluationSessionControl := {}
    if !cae.Mode.IsNull then
      let mode ← wrapErr "error parsing continuous access evaluation mode: "
        (ParseContinuousAccessEvaluationMode cae.Mode.ValueString)
      continuousAccessEvaluation := { continuousAccessEvaluation with mode := some mode }
    sessionControls := { sessionControls with
      continuousAccessEvaluation := some continuousAccessEvaluation }
  | none => pure ()
  match data.PersistentBrowser with
  | some pb =>
    let mut persistentBrowser : PersistentBrowserSessionControl :=
      { isEnabled := some pb.IsEnabled.ValueBool }
    if !pb.Mode.IsNull then
      let mode ← wrapErr "error parsing persistent browser session mode: "
        (ParsePersistentBrowserSessionMode pb.Mode.ValueString)
      persistentBrowser := { persistentBrowser with mode := some mode }
    sessionControls := { sessionControls with persistentBrowser := some persistentBrowser }
  | none => pure ()
  match data.SignInFrequency with
  | some sif =>
    let mut signInFrequency : SignInFrequencySessionControl :=
      { isEnabled := some sif.IsEnabled.ValueBool }
    if !sif.type.IsNull then
      let freqType ← wrapErr "error parsing sign-in frequency type: "
        (ParseSigninFrequencyType sif.type.ValueString)
      signInFrequency := { signInFrequency with typeEscaped := some freqType }
    if !sif.Value.IsNull then
      signInFrequency := { signInFrequency with value := some sif.Value.ValueInt32 }
    if !sif.FrequencyInterval.IsNull then
      let freqInterval ← wrapErr "error parsing sign-in frequency interval: "
        (ParseSignInFrequencyInterval sif.FrequencyInterval.ValueString)
      signInFrequency := { signInFrequency with frequencyInterval := some freqInterval }
    if !sif.AuthenticationType.IsNull then
      let authType ← wrapErr "error parsing sign-in frequency authentication type: "
        (ParseSignInFrequencyAuthenticationType sif.AuthenticationType.ValueString)
      signInFrequency := { signInFrequency with authenticationType := some authType }
    sessionControls := { sessionControls with signInFrequency := some signInFrequency }
  | none => pure ()
  match data.SecureSignInSession with
  | some s =>
    let secureSignInSession : SecureSignInSessionControl :=
      { isEnabled := some s.IsEnabled.ValueBool }
    sessionControls := { sessionControls with secureSignInSession := some secureSignInSession }
  | none => pure ()
  sessionControls := { sessionControls with
    disableResilienceDefaults := some data.DisableResilienceDefaults.ValueBool }
  return some sessionControls

/-- `constructResource` of `construct.go`: maps the attribute model to
the SDK request model.  Whether the trailing `json.MarshalIndent` debug
serialization of the constructed body succeeds is the oracle parameter
`marshalOk`; on a marshal failure the source returns an error. -/
def constructResource (marshalOk : Bool)
    (data : ConditionalAccessPolicyResourceModel) :
    Except String ConditionalAccessPolicy := do
  let mut requestBody : ConditionalAccessPolicy := {}
  requestBody := { requestBody with displayName := some data.DisplayName.ValueString }
  if !data.Description.IsNull then
    requestBody := { requestBody with description := some data.Description.ValueString }
  if !data.State.IsNull then
    -- with the modelled parser an unknown value always yields an error,
    -- so the nil result check of the source never fires
    let state ← wrapErr "invalid state: "
      (ParseConditionalAccessPolicyState data.State.ValueString)
    requestBody := { requestBody with state := some state }
  match data.Conditions with
  | some _ =>
    let conditions ← wrapErr "error constructing conditions: "
      (constructConditions data.Conditions)
    requestBody := { requestBody with conditions := conditions }
  | none => pure ()
  match data.GrantControls with
  | some _ =>
    let grantControls ← wrapErr "error constructing grant controls: "
      (constructGrantControls data.GrantControls)
    requestBody := { requestBody with grantControls := grantControls }
  | none => pure ()
  match data.SessionControls with
  | some _ =>
    let sessionControls ← wrapErr "error constructing session controls: "
      (constructSessionControls data.SessionControls)
    requestBody := { requestBody with sessionControls := sessionControls }
  | none => pure ()
  if !marshalOk then
    throw "error marshalling request body to JSON"
  return requestBody

/-! ## Concrete fixtures used by witnesses and counterexamples -/

/-- A concrete assignment filter state/plan. -/
def sampleAFState : AssignmentFilterResourceModel :=
  { ID := StringValue "f1"
    DisplayName := StringValue "test filter"
    Description := StringNull
    Platform := StringValue "windows10AndLater"
    Rule := StringValue "device rule"
    AssignmentFilterManagementType := StringValue "devices"
    CreatedDateTime := StringNull
    LastModifiedDateTime := StringNull
    RoleScopeTags := none
    Payloads := none }

/-- A concrete remote assignment filter as returned by the Graph API,
carrying server-computed timestamp fields. -/
def sampleRemoteFilter : DeviceAndAppManagementAssignmentFilter :=
  { id := some "f1"
    displayName := some "test filter"
    description := none
    platform := some "windows10AndLater"
    rule := some "device rule"
    assignmentFilterManagementType := some "devices"
    createdDateTime := some "2024-06-01T10:00:00Z"
    lastModifiedDateTime := some "2024-06-02T10:00:00Z"
    roleScopeTags := none
    payloads := none }

/-! ## Theorems -/

/-- C2: the claim says an unset optional field is never written to the
request as its language zero value; but `constructSessionControls` sets
`disableResilienceDefaults` unconditionally, so a session controls block
whose every attribute is null still produces a request body carrying
`disableResilienceDefaults = false` — the zero value of an unset
optional bool is sent. -/
theorem constructSessionControls_writes_zero_for_unset_optional :
    constructSessionControls (some {}) =
      .ok (some { disableResilienceDefaults := some false }) ∧
    ({} : ConditionalAccessSessionControlsModel).DisableResilienceDefaults.IsNull = true := by
  exact ⟨rfl, rfl⟩

/-- C8: for both Delete handler variants, any DELETE error (the
not-found case included, since `err` ranges over all errors) is surfaced
as an error diagnostic with state untouched, and a successful DELETE
unconditionally removes the state entry. -/
theorem delete_error_surfaced_success_removes
    (st : AssignmentFilterResourceModel) (err : GraphError) :
    (AssignmentFilterResource.Delete (.ok st) none (.error err) =
      ⟨[.error "Client error when deleting" err.message], .unchanged, true⟩) ∧
    (AssignmentFilterResource.Delete (.ok st) none (.ok ()) =
      ⟨[], .removed, true⟩) ∧
    (AssignmentFilterResource.DeleteV0 (.ok st) none (.error err) =
      ⟨[.error "Client error when deleting" err.message], .unchanged, true⟩) ∧
    (AssignmentFilterResource.DeleteV0 (.ok st) none (.ok ()) =
      ⟨[], .removed, true⟩) := by
  exact ⟨rfl, rfl, rfl, rfl⟩

/-- C10: a Read on a state with a null or empty id returns early with a
warning only: no remote call, no state change, no error diagnostic. -/
theorem read_empty_id_early_warning
    (st : AssignmentFilterResourceModel) (timeout? : Option String)
    (get : Except GraphError DeviceAndAppManagementAssignmentFilter)
    (h : st.ID.IsNull = true ∨ st.ID.ValueString = "") :
    AssignmentFilterResource.Read (.ok st) timeout? get =
      ⟨[.warning "Unable to read assignment filter"
          "Assignment filter ID is empty or null. Unable to read assignment filter."],
        .unchanged, false⟩ ∧
    hasError (AssignmentFilterResource.Read (.ok st) timeout? get).diagnostics = false := by
  have hcond : (st.ID.IsNull || st.ID.ValueString == "") = true := by
    rcases h with h | h
    · simp [h]
    · simp [h]
  constructor
  · simp [AssignmentFilterResource.Read, hcond]
  · simp [AssignmentFilterResource.Read, hcond, hasError, Diagnostic.isError]

/-- C10 witness: the early-warning Read at a concrete null-id state. -/
theorem read_empty_id_early_warning_witness :
    (({ sampleAFState with ID := StringNull } : AssignmentFilterResourceModel).ID.IsNull = true ∨
      ({ sampleAFState with ID := StringNull } : AssignmentFilterResourceModel).ID.ValueString = "") ∧
    (AssignmentFilterResource.Read (.ok { sampleAFState with ID := StringNull }) none
        (.ok sampleRemoteFilter) =
      ⟨[.warning "Unable to read assignment filter"
          "Assignment filter ID is empty or null. Unable to read assignment filter."],
        .unchanged, false⟩ ∧
      hasError (AssignmentFilterResource.Read (.ok { sampleAFState with ID := StringNull }) none
        (.ok sampleRemoteFilter)).diagnostics = false) :=
  ⟨Or.inl rfl,
    read_empty_id_early_warning { sampleAFState with ID := StringNull } none
      (.ok sampleRemoteFilter) (Or.inl rfl)⟩

/-- C1 counterexample: the claim quantifies over every Read handler in
the source, but the older Read variant surfaces a not-found GET error
as a hard error diagnostic and leaves state in place instead of
removing the resource with a warning. -/
theorem readV0_notFound_is_hard_error :
    AssignmentFilterResource.ReadV0 (.ok sampleAFState) none
        (.error (.notFound "404 resource not found")) =
      ⟨[.error "Error reading assignment filter"
          "Could not read assignment filter: 404 resource not found"],
        .unchanged, true⟩ ∧
    hasError (AssignmentFilterResource.ReadV0 (.ok sampleAFState) none
        (.error (.notFound "404 resource not found"))).diagnostics = true := by
  exact ⟨rfl, rfl⟩

/-- C1 amended: for the `crud.go` Read handler, a GET error classified
as not-found (on a non-null, non-empty id with the timeouts read
succeeding) removes the resource from state and emits exactly one
warning diagnostic — no error diagnostic, so the operation is not a
failure. -/
theorem read_notFound_removes_state_with_warning
    (st : AssignmentFilterResourceModel) (err : GraphError)
    (hnull : st.ID.IsNull = false)
    (hempty : (st.ID.ValueString == "") = false)
    (hnf : IsNotFoundError err = true) :
    AssignmentFilterResource.Read (.ok st) none (.error err) =
      ⟨[.warning "Assignment filter not found"
          ("Assignment filter with ID " ++ st.ID.ValueString
            ++ " was not found. Removing from state.")],
        .removed, true⟩ ∧
    hasError (AssignmentFilterResource.Read (.ok st) none
        (.error err)).diagnostics = false := by
  constructor
  · simp [AssignmentFilterResource.Read, hnull, hempty, hnf]
  · simp [AssignmentFilterResource.Read, hnull, hempty, hnf, hasError,
      Diagnostic.isError]

/-- C1 witness: the amended Read behaviour at a concrete state and a
concrete not-found error. -/
theorem read_notFound_removes_state_with_warning_witness :
    (sampleAFState.ID.IsNull = false) ∧
    ((sampleAFState.ID.ValueString == "") = false) ∧
    (IsNotFoundError (.notFound "404 resource not found") = true) ∧
    (AssignmentFilterResource.Read (.ok sampleAFState) none
        (.error (.notFound "404 resource not found")) =
      ⟨[.warning "Assignment filter not found"
          ("Assignment filter with ID " ++ sampleAFState.ID.ValueString
            ++ " was not found. Removing from state.")],
        .removed, true⟩ ∧
      hasError (AssignmentFilterResource.Read (.ok sampleAFState) none
          (.error (.notFound "404 resource not found"))).diagnostics = false) :=
  ⟨rfl, rfl, rfl,
    read_notFound_removes_state_with_warning sampleAFState
      (.notFound "404 resource not found") rfl rfl rfl⟩

/-- C5 counterexample: the claim quantifies over every Create handler in
the source, but the older Create variant persists the plan right after
capturing the returned identifier, never invoking the State Mapper: on
a successful POST whose response carries a server-computed creation
timestamp, the persisted state still has `created_date_time` unset. -/
theorem createV0_skips_state_mapper :
    (AssignmentFilterResource.CreateV0 (.ok sampleAFState) none
        (fun _ => .ok ()) (fun _ => .ok sampleRemoteFilter)).state =
      .set { sampleAFState with ID := StringValue "f1" } ∧
    ({ sampleAFState with ID := StringValue "f1" } :
        AssignmentFilterResourceModel).CreatedDateTime = StringNull ∧
    sampleRemoteFilter.createdDateTime = some "2024-06-01T10:00:00Z" ∧
    (AssignmentFilterResource.CreateV0 (.ok sampleAFState) none
        (fun _ => .ok ()) (fun _ => .ok sampleRemoteFilter)).state ≠
      .set (mapRemoteStateToTerraform
        { sampleAFState with ID := StringValue "f1" } sampleRemoteFilter) := by
  refine ⟨rfl, rfl, rfl, ?_⟩
  decide

/-- C5 amended: for the `crud.go` Create handler, a successful run
captures the returned identifier, applies the State Mapper to the POST
response and persists the mapped model, so computed remote fields
(creation and modification timestamps) are populated in the persisted
state. -/
theorem create_maps_remote_then_persists {β : Type}
    (plan : AssignmentFilterResourceModel)
    (construct : AssignmentFilterResourceModel → Except String β)
    (post : β → Except GraphError DeviceAndAppManagementAssignmentFilter)
    (b : β) (af : DeviceAndAppManagementAssignmentFilter)
    (hc : construct plan = .ok b) (hp : post b = .ok af) :
    AssignmentFilterResource.Create (.ok plan) none construct post =
      ⟨[], .set (mapRemoteStateToTerraform
          { plan with ID := StringValue (af.id.getD "") } af), true⟩ ∧
    (mapRemoteStateToTerraform { plan with ID := StringValue (af.id.getD "") }
        af).CreatedDateTime = ⟨af.createdDateTime⟩ ∧
    (mapRemoteStateToTerraform { plan with ID := StringValue (af.id.getD "") }
        af).LastModifiedDateTime = ⟨af.lastModifiedDateTime⟩ := by
  refine ⟨?_, rfl, rfl⟩
  simp [AssignmentFilterResource.Create, hc, hp]

/-- C5 witness: the amended Create behaviour at a concrete plan and a
concrete successful POST response. -/
theorem create_maps_remote_then_persists_witness :
    ((fun (_ : AssignmentFilterResourceModel) => (Except.ok () : Except String Unit))
        sampleAFState = .ok ()) ∧
    ((fun (_ : Unit) => (Except.ok sampleRemoteFilter :
        Except GraphError DeviceAndAppManagementAssignmentFilter)) () =
      .ok sampleRemoteFilter) ∧
    (AssignmentFilterResource.Create (.ok sampleAFState) none
        (fun _ => .ok ()) (fun _ => .ok sampleRemoteFilter) =
      ⟨[], .set (mapRemoteStateToTerraform
          { sampleAFState with ID := StringValue (sampleRemoteFilter.id.getD "") }
          sampleRemoteFilter), true⟩ ∧
      (mapRemoteStateToTerraform
          { sampleAFState with ID := StringValue (sampleRemoteFilter.id.getD "") }
          sampleRemoteFilter).CreatedDateTime = ⟨sampleRemoteFilter.createdDateTime⟩ ∧
      (mapRemoteStateToTerraform
          { sampleAFState with ID := StringValue (sampleRemoteFilter.id.getD "") }
          sampleRemoteFilter).LastModifiedDateTime =
        ⟨sampleRemoteFilter.lastModifiedDateTime⟩) :=
  ⟨rfl, rfl,
    create_maps_remote_then_persists sampleAFState
      (fun _ => .ok ()) (fun _ => .ok sampleRemoteFilter) () sampleRemoteFilter rfl rfl⟩

/-- C6: for both Create handler variants and every combination of plan
decode, timeouts read, construction and POST outcomes, either the state
is left unchanged or no error diagnostic was emitted — equivalently, a
failing Create never persists state. -/
theorem create_failure_persists_no_state {β : Type}
    (plan? : Except String AssignmentFilterResourceModel) (timeout? : Option String)
    (construct : AssignmentFilterResourceModel → Except String β)
    (post : β → Except GraphError DeviceAndAppManagementAssignmentFilter) :
    ((AssignmentFilterResource.Create plan? timeout? construct post).state = .unchanged ∨
      hasError (AssignmentFilterResource.Create plan? timeout? construct post).diagnostics = false) ∧
    ((AssignmentFilterResource.CreateV0 plan? timeout? construct post).state = .unchanged ∨
      hasError (AssignmentFilterResource.CreateV0 plan? timeout? construct post).diagnostics = false) := by
  constructor
  · cases plan? with
    | error e => exact Or.inl rfl
    | ok plan =>
      cases timeout? with
      | some e => exact Or.inl rfl
      | none =>
        cases hc : construct plan with
        | error err => exact Or.inl (by simp [AssignmentFilterResource.Create, hc])
        | ok b =>
          cases hp : post b with
          | error err => exact Or.inl (by simp [AssignmentFilterResource.Create, hc, hp])
          | ok af =>
            exact Or.inr (by simp [AssignmentFilterResource.Create, hc, hp, hasError])
  · cases plan? with
    | error e => exact Or.inl rfl
    | ok plan =>
      cases timeout? with
      | some e => exact Or.inl rfl
      | none =>
        cases hc : construct plan with
        | error err => exact Or.inl (by simp [AssignmentFilterResource.CreateV0, hc])
        | ok b =>
          cases hp : post b with
          | error err => exact Or.inl (by simp [AssignmentFilterResource.CreateV0, hc, hp])
          | ok af =>
            exact Or.inr (by simp [AssignmentFilterResource.CreateV0, hc, hp, hasError])

/-- C7: on a PATCH error classified as not-found, the `crud.go` Update
removes the state with a warning when the `isCreate` flag is unset and
hard-errors when it is set; the older Update surfaces every PATCH error
as a hard error with state untouched; hence the two variants disagree
at that input. -/
theorem update_variants_notFound_divergence {β : Type}
    (plan : AssignmentFilterResourceModel)
    (construct : AssignmentFilterResourceModel → Except String β)
    (patch : β → Except GraphError Unit) (b : β) (err : GraphError)
    (hc : construct plan = .ok b) (hp : patch b = .error err)
    (hnf : IsNotFoundError err = true) :
    (AssignmentFilterResource.Update false (.ok plan) none construct patch =
      ⟨[.warning "Resource Not Found"
          ("The resource with ID " ++ plan.ID.ValueString
            ++ " was not found and will be removed from the state.")],
        .removed, true⟩) ∧
    (AssignmentFilterResource.Update true (.ok plan) none construct patch =
      ⟨[.error "Error reading assignment filter"
          ("Could not update resource: " ++ err.message)], .unchanged, true⟩) ∧
    (∀ (err2 : GraphError) (patch2 : β → Except GraphError Unit),
      patch2 b = .error err2 →
      AssignmentFilterResource.UpdateV0 (.ok plan) none construct patch2 =
        ⟨[.error "Error updating assignment filter"
            ("Could not update assignment filter: " ++ err2.message)],
          .unchanged, true⟩) ∧
    (AssignmentFilterResource.Update false (.ok plan) none construct patch ≠
      AssignmentFilterResource.UpdateV0 (.ok plan) none construct patch) := by
  have h1 : AssignmentFilterResource.Update false (.ok plan) none construct patch =
      ⟨[.warning "Resource Not Found"
          ("The resource with ID " ++ plan.ID.ValueString
            ++ " was not found and will be removed from the state.")],
        .removed, true⟩ := by
    simp [AssignmentFilterResource.Update, hc, hp, hnf]
  have h3 : ∀ (err2 : GraphError) (patch2 : β → Except GraphError Unit),
      patch2 b = .error err2 →
      AssignmentFilterResource.UpdateV0 (.ok plan) none construct patch2 =
        ⟨[.error "Error updating assignment filter"
            ("Could not update assignment filter: " ++ err2.message)],
          .unchanged, true⟩ := by
    intro err2 patch2 hp2
    simp [AssignmentFilterResource.UpdateV0, hc, hp2]
  refine ⟨h1, ?_, h3, ?_⟩
  · simp [AssignmentFilterResource.Update, hc, hp, hnf]
  · rw [h1, h3 err patch hp]
    simp

/-- C7 witness: the divergence at a concrete plan and a concrete
not-found PATCH error. -/
theorem update_variants_notFound_divergence_witness :
    ((fun (_ : AssignmentFilterResourceModel) => (Except.ok () : Except String Unit))
        sampleAFState = .ok ()) ∧
    ((fun (_ : Unit) => (Except.error (GraphError.notFound "404") :
        Except GraphError Unit)) () = .error (.notFound "404")) ∧
    (IsNotFoundError (.notFound "404") = true) ∧
    ((AssignmentFilterResource.Update false (.ok sampleAFState) none
        (fun _ => .ok ()) (fun _ => .error (.notFound "404")) =
      ⟨[.warning "Resource Not Found"
          ("The resource with ID " ++ sampleAFState.ID.ValueString
            ++ " was not found and will be removed from the state.")],
        .removed, true⟩) ∧
    (AssignmentFilterResource.Update true (.ok sampleAFState) none
        (fun _ => .ok ()) (fun _ => .error (.notFound "404")) =
      ⟨[.error "Error reading assignment filter"
          ("Could not update resource: " ++ (GraphError.notFound "404").message)],
        .unchanged, true⟩) ∧
    (∀ (err2 : GraphError) (patch2 : Unit → Except GraphError Unit),
      patch2 () = .error err2 →
      AssignmentFilterResource.UpdateV0 (.ok sampleAFState) none
          (fun _ => .ok ()) patch2 =
        ⟨[.error "Error updating assignment filter"
            ("Could not update assignment filter: " ++ err2.message)],
          .unchanged, true⟩) ∧
    (AssignmentFilterResource.Update false (.ok sampleAFState) none
        (fun _ => .ok ()) (fun _ => .error (.notFound "404")) ≠
      AssignmentFilterResource.UpdateV0 (.ok sampleAFState) none
        (fun _ => .ok ()) (fun _ => .error (.notFound "404")))) :=
  ⟨rfl, rfl, rfl,
    update_variants_notFound_divergence sampleAFState
      (fun _ => .ok ()) (fun _ => .error (.notFound "404")) () (.notFound "404")
      rfl rfl rfl⟩

/-- Binding a failed `Except` short-circuits with the same error. -/
theorem except_error_bind {α β : Type} (msg : String) (f : α → Except String β) :
    (Except.error msg >>= f) = Except.error msg := rfl

/-- Binding a successful `Except` applies the continuation. -/
theorem except_ok_bind {α β : Type} (a : α) (f : α → Except String β) :
    (Except.ok a >>= f) = f a := rfl

/-- Lifts "every continuation outcome is an error" through a bind. -/
theorem exists_error_bind {α β : Type} (e : Except String α) (f : α → Except String β)
    (h : ∀ a, ∃ msg, f a = Except.error msg) : ∃ msg, (e >>= f) = Except.error msg := by
  cases e with
  | error msg => exact ⟨msg, rfl⟩
  | ok a => exact h a

/-- Characterization of a successful `List.mapM` over `Except`: the
output has the input's length and element `i` of the output is the
image of element `i` of the input, for every index. -/
theorem mapM_except_ok {α β : Type} (f : α → Except String β) :
    ∀ (xs : List α) (ys : List β), xs.mapM f = Except.ok ys →
      ys.length = xs.length ∧
      ∀ i (h1 : i < xs.length) (h2 : i < ys.length),
        f (xs.get ⟨i, h1⟩) = Except.ok (ys.get ⟨i, h2⟩) := by
  intro xs
  induction xs with
  | nil =>
    intro ys h
    simp only [List.mapM_nil, pure, Except.pure, Except.ok.injEq] at h
    subst h
    refine ⟨rfl, ?_⟩
    intro i h1 h2
    exact absurd h1 (by simp)
  | cons a as ih =>
    intro ys h
    rw [List.mapM_cons] at h
    cases hfa : f a with
    | error e => rw [hfa] at h; simp [except_error_bind] at h
    | ok b =>
      rw [hfa] at h
      simp only [except_ok_bind] at h
      cases hmas : as.mapM f with
      | error e => rw [hmas] at h; simp [except_error_bind] at h
      | ok bs =>
        rw [hmas] at h
        simp only [except_ok_bind, pure, Except.pure, Except.ok.injEq] at h
        subst h
        obtain ⟨hlen, hidx⟩ := ih bs hmas
        refine ⟨by simp [hlen], ?_⟩
        intro i h1 h2
        cases i with
        | zero => simp only [List.get]; exact hfa
        | succ n =>
          simp only [List.get]
          exact hidx n (by simpa using h1) (by simpa using h2)

/-- C3 counterexample: the claim says a failure of the debug
serialization never causes the Constructor to return an error, but on a
concrete model with the marshal step failing, `constructResource`
returns exactly the marshalling error. -/
theorem constructResource_marshal_failure_concrete :
    constructResource false { DisplayName := StringValue "policy" } =
      .error "error marshalling request body to JSON" := rfl

/-- C3 amended: the debug serialization is not a harmless side effect —
whenever the `json.MarshalIndent` step fails, the Constructor returns an
error, so it never produces a request model on any input. -/
theorem constructResource_marshalFailure_always_errors
    (data : ConditionalAccessPolicyResourceModel) :
    ∃ msg, constructResource false data = Except.error msg := by
  unfold constructResource
  repeat' first
    | (exact ⟨_, rfl⟩)
    | (apply exists_error_bind; intro _)
    | split
  all_goals simp_all

/-- C4: a `state` attribute outside the Graph API's known enumerator
set makes `constructResource` fail with an error naming the field
(`state`) and the offending value; and a Create handler whose
constructor fails emits a hard error diagnostic, leaves state
unchanged, and never reaches the remote POST call. -/
theorem invalid_enum_fails_construction_and_aborts
    (data : ConditionalAccessPolicyResourceModel) (v : String) (marshalOk : Bool)
    (hv : data.State = StringValue v)
    (h1 : v ≠ "enabled") (h2 : v ≠ "disabled")
    (h3 : v ≠ "enabledForReportingButNotEnforced") :
    constructResource marshalOk data =
      .error ("invalid state: " ++ v ++ " is not a valid ConditionalAccessPolicyState") ∧
    (∀ (β : Type) (plan : AssignmentFilterResourceModel)
        (construct : AssignmentFilterResourceModel → Except String β)
        (post : β → Except GraphError DeviceAndAppManagementAssignmentFilter)
        (e : String), construct plan = .error e →
      AssignmentFilterResource.Create (.ok plan) none construct post =
        ⟨[.error "Error constructing assignment filter"
            ("Could not construct resource: " ++ e)], .unchanged, false⟩) := by
  have hparse : ParseConditionalAccessPolicyState v =
      .error (v ++ " is not a valid ConditionalAccessPolicyState") := by
    unfold ParseConditionalAccessPolicyState
    split <;> simp_all
  have hnull : data.State.IsNull = false := by rw [hv]; rfl
  have hval : data.State.ValueString = v := by rw [hv]; rfl
  constructor
  · unfold constructResource
    simp [hnull, hval, hparse, wrapErr, except_error_bind, String.append_assoc]
  · intro β plan construct post e hce
    simp [AssignmentFilterResource.Create, hce]

/-- C4 witness: the aborting behaviour at the concrete invalid enum
value `bogus` and a concrete failing constructor. -/
theorem invalid_enum_fails_construction_and_aborts_witness :
    (({ DisplayName := StringValue "p", State := StringValue "bogus" } :
        ConditionalAccessPolicyResourceModel).State = StringValue "bogus") ∧
    ("bogus" ≠ "enabled") ∧ ("bogus" ≠ "disabled") ∧
    ("bogus" ≠ "enabledForReportingButNotEnforced") ∧
    (constructResource true
        { DisplayName := StringValue "p", State := StringValue "bogus" } =
      .error ("invalid state: " ++ "bogus"
          ++ " is not a valid ConditionalAccessPolicyState") ∧
    (∀ (β : Type) (plan : AssignmentFilterResourceModel)
        (construct : AssignmentFilterResourceModel → Except String β)
        (post : β → Except GraphError DeviceAndAppManagementAssignmentFilter)
        (e : String), construct plan = .error e →
      AssignmentFilterResource.Create (.ok plan) none construct post =
        ⟨[.error "Error constructing assignment filter"
            ("Could not construct resource: " ++ e)], .unchanged, false⟩)) :=
  ⟨rfl, by decide, by decide, by decide,
    invalid_enum_fails_construction_and_aborts
      { DisplayName := StringValue "p", State := StringValue "bogus" }
      "bogus" true rfl (by decide) (by decide) (by decide)⟩

/-- C9: nested collection fields are mapped element-wise preserving
input ordering (shown for `include_applications` in
`constructApplications` and for the enum-parsed `client_app_types` list
in `constructConditions`), and a collection absent in the source (the
empty/nil slice) is omitted from the request model rather than sent as
an empty list. -/
theorem nested_collections_ordered_and_absent_omitted
    (exc act : List TFString) (ts : List TFString)
    (parsed : List ConditionalAccessClientApp)
    (hne : ts ≠ [])
    (hts : ts.mapM (fun t => ParseConditionalAccessClientApp t.ValueString) = Except.ok parsed) :
    (∃ a, constructApplications (some { IncludeApplications := [], ExcludeApplications := exc, IncludeUserActions := act }) = .ok (some a) ∧
      a.includeApplications = none) ∧
    (∃ a, constructApplications (some { IncludeApplications := ts, ExcludeApplications := exc, IncludeUserActions := act }) = .ok (some a) ∧
      a.includeApplications = some (ts.map TFString.ValueString)) ∧
    (∀ i : Fin ts.length,
      (ts.map TFString.ValueString).get ⟨i.val, by simp only [List.length_map]; exact i.isLt⟩ = (ts.get i).ValueString) ∧
    (constructConditions (some { ClientAppTypes := [] }) =
      .ok (some ({} : ConditionalAccessConditionSet))) ∧
    (constructConditions (some { ClientAppTypes := ts }) =
      .ok (some { clientAppTypes := some parsed })) ∧
    parsed.length = ts.length ∧
    (∀ i (h1 : i < ts.length) (h2 : i < parsed.length),
      ParseConditionalAccessClientApp (ts.get ⟨i, h1⟩).ValueString =
        Except.ok (parsed.get ⟨i, h2⟩)) := by
  obtain ⟨hlen, hidx⟩ := mapM_except_ok _ ts parsed hts
  have hpos : 0 < ts.length := List.length_pos.mpr hne
  refine ⟨?_, ?_, ?_, ?_, ?_, hlen, hidx⟩
  · simp only [constructApplications]
    repeat' split
    all_goals first
      | exact ⟨_, rfl, rfl⟩
      | simp_all
  · simp only [constructApplications]
    repeat' split
    all_goals first
      | exact ⟨_, rfl, rfl⟩
      | simp_all
  · intro i
    simp [List.getElem_map]
  · rfl
  · simp only [constructConditions]
    rw [if_pos hpos, hts]
    rfl

/-- Concrete list attribute value used by the C9 witness. -/
def sampleClientAppTypes : List TFString := [StringValue "browser", StringValue "all"]

/-- Its parsed Graph SDK counterpart. -/
def sampleParsedClientApps : List ConditionalAccessClientApp :=
  [ConditionalAccessClientApp.browser, ConditionalAccessClientApp.all]

/-- C9 witness: order preservation and omission at a concrete two-entry
list. -/
theorem nested_collections_ordered_and_absent_omitted_witness :
    (sampleClientAppTypes ≠ []) ∧
    (sampleClientAppTypes.mapM (fun t => ParseConditionalAccessClientApp t.ValueString) =
      Except.ok sampleParsedClientApps) ∧
    ((∃ a, constructApplications (some { IncludeApplications := [], ExcludeApplications := [], IncludeUserActions := [] }) = .ok (some a) ∧
      a.includeApplications = none) ∧
    (∃ a, constructApplications (some { IncludeApplications := sampleClientAppTypes, ExcludeApplications := [], IncludeUserActions := [] }) = .ok (some a) ∧
      a.includeApplications = some (sampleClientAppTypes.map TFString.ValueString)) ∧
    (∀ i : Fin sampleClientAppTypes.length,
      (sampleClientAppTypes.map TFString.ValueString).get ⟨i.val, by simp only [List.length_map]; exact i.isLt⟩ =
        (sampleClientAppTypes.get i).ValueString) ∧
    (constructConditions (some { ClientAppTypes := [] }) =
      .ok (some ({} : ConditionalAccessConditionSet))) ∧
    (constructConditions (some { ClientAppTypes := sampleClientAppTypes }) =
      .ok (some { clientAppTypes := some sampleParsedClientApps })) ∧
    sampleParsedClientApps.length = sampleClientAppTypes.length ∧
    (∀ i (h1 : i < sampleClientAppTypes.length) (h2 : i < sampleParsedClientApps.length),
      ParseConditionalAccessClientApp (sampleClientAppTypes.get ⟨i, h1⟩).ValueString =
        Except.ok (sampleParsedClientApps.get ⟨i, h2⟩))) :=
  ⟨by decide, rfl,
    nested_collections_ordered_and_absent_omitted [] [] sampleClientAppTypes
      sampleParsedClientApps (by decide) rfl⟩
